/-
  Verification of the authentication/session-token subsystem of the
  ECommerce-ExpressJS backend.

  The definitions below are a shallow embedding of:
    - the Token model (tokenTypes, tokenSchema) and its MongoDB operations,
    - src/services/token.service.js,
    - src/services/auth.service.js,
    - the auth middleware (verifyToken / authorize),
    - the relevant controller fragments (forgotPassword, updateMe).

  Modelling conventions:
    - Times are unix seconds (Nat), matching moment().unix() and jwt iat/exp.
    - JWT signing with the fixed server secret (HS256) is deterministic and
      assumed injective, so a signed token string is represented by its
      payload record {sub, iat, exp, type}; two tokens are the same string
      iff their payloads are equal.
    - MongoDB collections are lists in insertion order; findOne returns the
      first match; document _id values are allocated by a counter. Since
      MongoDB enforces a unique _id index, deleting by _id removes at most
      one record; we realize it as a filter on the id field.
    - Async/await sequencing becomes plain sequencing; thrown errors become
      Except.error; a try/catch that rethrows a fixed error becomes a match
      that maps every error to that fixed error.
    - bcrypt comparison and hashing live in the User model file, which is
      not part of the sources; they are taken as parameters (cmp, hash) and
      the pre-save behaviour is modelled from the spec where noted.
-/
import Mathlib

namespace ECommerceAuth

/-- Token kinds, from tokenTypes in the Token model. -/
inductive TokenType where
  | access
  | refresh
  | resetPassword
  | verifyEmail
deriving DecidableEq, Repr

/-- JWT payload as built by generateToken in token.service.js:
{ sub: userId, iat: moment().unix(), exp: expires.unix(), type }.
A signed token string is identified with its payload (deterministic signer). -/
structure Jwt where
  sub : Nat
  iat : Nat
  exp : Nat
  type : TokenType
deriving DecidableEq, Repr

/-- Operational error classes from utils/ApiError.js, plus the two
jsonwebtoken verification failures and the generic `throw new Error()`. -/
inductive Err where
  | unauthorized (msg : String)
  | badRequest (msg : String)
  | notFound (msg : String)
  | conflict (msg : String)
  | forbidden (msg : String)
  | jwtExpired
  | internal
deriving DecidableEq, Repr

/-- A document of the Token collection (tokenSchema): token string, owning
user, kind, expiry, blacklisted flag, plus the MongoDB _id. -/
structure TokenRecord where
  id : Nat
  token : Jwt
  user : Nat
  type : TokenType
  expires : Nat
  blacklisted : Bool
deriving DecidableEq, Repr

/-- The Token collection: documents in insertion order and the next _id. -/
structure Ledger where
  recs : List TokenRecord
  nextId : Nat
deriving DecidableEq, Repr

/-- Token.create: unconditionally inserts a new document (the token field is
indexed but not unique in tokenSchema). -/
def Ledger.create (l : Ledger) (token : Jwt) (user : Nat) (expires : Nat)
    (type : TokenType) (blacklisted : Bool) : TokenRecord × Ledger :=
  let r : TokenRecord :=
    { id := l.nextId, token := token, user := user, type := type,
      expires := expires, blacklisted := blacklisted }
  (r, { recs := l.recs ++ [r], nextId := l.nextId + 1 })

/-- Token.findOne(query): first document matching the query predicate. -/
def Ledger.findOne (l : Ledger) (p : TokenRecord → Bool) : Option TokenRecord :=
  l.recs.find? p

/-- document.deleteOne(): deletes the document with the given _id. MongoDB
keeps _id unique, so this removes at most one record; deleting an already
deleted document is a no-op, not an error. -/
def Ledger.deleteDoc (l : Ledger) (id : Nat) : Ledger :=
  { recs := l.recs.filter (fun r => decide (r.id ≠ id)), nextId := l.nextId }

/-- Token.deleteMany(query): deletes every document matching the query. -/
def Ledger.deleteMany (l : Ledger) (p : TokenRecord → Bool) : Ledger :=
  { recs := l.recs.filter (fun r => !(p r)), nextId := l.nextId }

/-- A document of the User collection. The password field holds the stored
hash. passwordChangedAt and lastLogin are optional timestamps. -/
structure User where
  id : Nat
  email : String
  password : String
  role : String
  isActive : Bool
  isEmailVerified : Bool
  passwordChangedAt : Option Nat
  lastLogin : Option Nat
deriving DecidableEq, Repr

/-- User.findById. -/
def findById (users : List User) (uid : Nat) : Option User :=
  users.find? (fun u => decide (u.id = uid))

/-- User.findOne({ email }). -/
def findByEmail (users : List User) (email : String) : Option User :=
  users.find? (fun u => decide (u.email = email))

/-- user.save(): persists the mutated document in place (keyed by _id). -/
def saveUser (users : List User) (u : User) : List User :=
  users.map (fun v => if v.id = u.id then u else v)

/-- The jwt configuration block from config (expiration settings). -/
structure Config where
  accessExpirationMinutes : Nat
  refreshExpirationDays : Nat
  resetPasswordExpirationMinutes : Nat
  verifyEmailExpirationMinutes : Nat
deriving DecidableEq, Repr

/-- jwt.verify(token, secret): fails when the token is expired
(clockTimestamp >= exp); otherwise yields the decoded payload. Signature
validity is implicit in the payload representation. -/
def jwtVerify (tok : Jwt) (now : Nat) : Except Err Jwt :=
  if now < tok.exp then .ok tok else .error .jwtExpired

/-- generateToken from token.service.js. -/
def generateToken (userId : Nat) (now : Nat) (expires : Nat) (type : TokenType) : Jwt :=
  { sub := userId, iat := now, exp := expires, type := type }

/-- saveToken from token.service.js: Token.create({token, user, expires,
type, blacklisted}). -/
def saveToken (l : Ledger) (token : Jwt) (userId : Nat) (expires : Nat)
    (type : TokenType) (blacklisted : Bool) : TokenRecord × Ledger :=
  l.create token userId expires type blacklisted

/-- The ledger query inside verifyToken (token.service.js):
Token.findOne({ token, type, user: payload.sub, blacklisted: false }).
This realizes the findValid lookup of the spec. -/
def findValidLookup (l : Ledger) (token : Jwt) (sub : Nat) (type : TokenType) :
    Option TokenRecord :=
  l.findOne (fun r =>
    decide (r.token = token ∧ r.type = type ∧ r.user = sub ∧ r.blacklisted = false))

/-- verifyToken from token.service.js: jwt.verify, then the ledger lookup;
throws Unauthorized("Token not found") when no document matches. -/
def verifyToken (l : Ledger) (token : Jwt) (type : TokenType) (now : Nat) :
    Except Err TokenRecord :=
  match jwtVerify token now with
  | .error e => .error e
  | .ok payload =>
    match findValidLookup l token payload.sub type with
    | none => .error (.unauthorized "Token not found")
    | some doc => .ok doc

/-- The access+refresh pair returned by generateAuthTokens. -/
structure TokenPair where
  accessToken : Jwt
  accessExpires : Nat
  refreshToken : Jwt
  refreshExpires : Nat
deriving DecidableEq, Repr

/-- generateAuthTokens from token.service.js: mints an access token and a
refresh token at the current time and persists only the refresh token. -/
def generateAuthTokens (cfg : Config) (l : Ledger) (userId : Nat) (now : Nat) :
    TokenPair × Ledger :=
  let accessExpires := now + cfg.accessExpirationMinutes * 60
  let accessToken := generateToken userId now accessExpires .access
  let refreshExpires := now + cfg.refreshExpirationDays * 86400
  let refreshToken := generateToken userId now refreshExpires .refresh
  let saved := saveToken l refreshToken userId refreshExpires .refresh false
  ({ accessToken := accessToken, accessExpires := accessExpires,
     refreshToken := refreshToken, refreshExpires := refreshExpires }, saved.2)

/-- generateResetPasswordToken from token.service.js. -/
def generateResetPasswordToken (cfg : Config) (l : Ledger) (userId : Nat) (now : Nat) :
    Jwt × Ledger :=
  let expires := now + cfg.resetPasswordExpirationMinutes * 60
  let tok := generateToken userId now expires .resetPassword
  (tok, (saveToken l tok userId expires .resetPassword false).2)

/-- The combined persistent state the auth flows read and write. -/
structure AuthState where
  users : List User
  ledger : Ledger
deriving DecidableEq, Repr

/-- login from auth.service.js: findOne by email with password selected,
a single Unauthorized for both the missing-user and the wrong-password
branches, an Unauthorized for a deactivated account, then lastLogin update.
cmp is bcrypt compare(candidate, storedHash) from the User model. -/
def login (cmp : String → String → Bool) (s : AuthState)
    (email password : String) (now : Nat) : Except Err (User × AuthState) :=
  match findByEmail s.users email with
  | none => .error (.unauthorized "Incorrect email or password")
  | some user =>
    if !(cmp password user.password) then
      .error (.unauthorized "Incorrect email or password")
    else if !user.isActive then
      .error (.unauthorized "Your account has been deactivated")
    else
      let user1 := { user with lastLogin := some now }
      .ok (user1, { s with users := saveUser s.users user1 })

/-- The read phase of refreshAuth (auth.service.js): tokenService.verifyToken
(jwt.verify plus the ledger findOne) followed by User.findById; the
`if (!user) throw new Error()` guard becomes the internal error. No write
happens in this phase. -/
def rotationLookup (s : AuthState) (refreshToken : Jwt) (now : Nat) :
    Except Err (TokenRecord × User) :=
  match verifyToken s.ledger refreshToken .refresh now with
  | .error e => .error e
  | .ok doc =>
    match findById s.users doc.user with
    | none => .error .internal
    | some user => .ok (doc, user)

/-- The write phase of refreshAuth: refreshTokenDoc.deleteOne() (a separate
statement from the findOne of the read phase; a no-op when the document is
already gone) and then generateAuthTokens. -/
def rotationCommit (cfg : Config) (s : AuthState) (doc : TokenRecord)
    (user : User) (now : Nat) : TokenPair × AuthState :=
  let l1 := s.ledger.deleteDoc doc.id
  let gen := generateAuthTokens cfg l1 user.id now
  (gen.1, { s with ledger := gen.2 })

/-- refreshAuth from auth.service.js: the read phase then the write phase,
wrapped in the try/catch that maps every failure to
Unauthorized("Please authenticate"). -/
def refreshAuth (cfg : Config) (s : AuthState) (refreshToken : Jwt) (now : Nat) :
    Except Err (TokenPair × AuthState) :=
  match rotationLookup s refreshToken now with
  | .error _ => .error (.unauthorized "Please authenticate")
  | .ok (doc, user) =>
    let committed := rotationCommit cfg s doc user now
    .ok committed

/-- Modelled from the spec: the User model file is not among the sources;
per section 4.1 the credential store hashes the password before persisting
and markPasswordChanged updates the "password changed at" timestamp used to
invalidate tokens issued before this moment. -/
def applyPasswordChange (hash : String → String) (u : User)
    (newPassword : String) (now : Nat) : User :=
  { u with password := hash newPassword, passwordChangedAt := some now }

/-- changePassword from auth.service.js: findById with password selected,
BadRequest on a missing user or a mismatching current password, then the
password update and Token.deleteMany({user: user.id, type: REFRESH}). -/
def changePassword (cmp : String → String → Bool) (hash : String → String)
    (s : AuthState) (userId : Nat) (currentPassword newPassword : String)
    (now : Nat) : Except Err AuthState :=
  match findById s.users userId with
  | none => .error (.badRequest "Current password is incorrect")
  | some user =>
    if !(cmp currentPassword user.password) then
      .error (.badRequest "Current password is incorrect")
    else
      let user1 := applyPasswordChange hash user newPassword now
      let users1 := saveUser s.users user1
      let ledger1 := s.ledger.deleteMany
        (fun r => decide (r.user = user.id ∧ r.type = TokenType.refresh))
      .ok { users := users1, ledger := ledger1 }

/-- The body of the try block of resetPassword (auth.service.js): verifyToken
on the reset token, User.findById (with the `throw new Error()` guard),
password update, then Token.deleteMany for RESET_PASSWORD and for REFRESH. -/
def resetPasswordInner (hash : String → String) (s : AuthState)
    (resetPasswordToken : Jwt) (newPassword : String) (now : Nat) :
    Except Err AuthState :=
  match verifyToken s.ledger resetPasswordToken .resetPassword now with
  | .error e => .error e
  | .ok doc =>
    match findById s.users doc.user with
    | none => .error Err.internal
    | some user =>
      let user1 := applyPasswordChange hash user newPassword now
      let users1 := saveUser s.users user1
      let l1 := s.ledger.deleteMany
        (fun r => decide (r.user = user.id ∧ r.type = TokenType.resetPassword))
      let l2 := l1.deleteMany
        (fun r => decide (r.user = user.id ∧ r.type = TokenType.refresh))
      .ok { users := users1, ledger := l2 }

/-- resetPassword from auth.service.js: the try body, with the catch that
collapses every failure to Unauthorized("Password reset failed"). -/
def resetPassword (hash : String → String) (s : AuthState)
    (resetPasswordToken : Jwt) (newPassword : String) (now : Nat) :
    Except Err AuthState :=
  match resetPasswordInner hash s resetPasswordToken newPassword now with
  | .error _ => .error (.unauthorized "Password reset failed")
  | .ok s1 => .ok s1

/-- forgotPassword from auth.service.js: lookup by email; when absent,
return with no token issued and no mail sent; when present, issue and
persist a reset token and send the reset email. The second component lists
the (recipient, token) mails handed to the notifier. -/
def forgotPassword (cfg : Config) (s : AuthState) (email : String) (now : Nat) :
    AuthState × List (String × Jwt) :=
  match findByEmail s.users email with
  | none => (s, [])
  | some user =>
    let issued := generateResetPasswordToken cfg s.ledger user.id now
    ({ s with ledger := issued.2 }, [(email, issued.1)])

/-- Modelled from the spec: user.changedPasswordAfter lives in the User model
file, which is not among the sources; per the spec, the authorization gate
rejects a token when the "password changed at" timestamp of the user is newer
than the issued-at claim of the token. -/
def changedPasswordAfter (u : User) (iat : Nat) : Bool :=
  match u.passwordChangedAt with
  | some changedAt => decide (iat < changedAt)
  | none => false

/-- verifyToken from the auth middleware: extracted bearer token (none when
no header and no cookie carried one), jwt.verify (the TokenExpiredError
branch of the catch), User.findById, the changedPasswordAfter check, and the
isActive check; on success the resolved user is attached. -/
def authGate (users : List User) (tok : Option Jwt) (now : Nat) :
    Except Err User :=
  match tok with
  | none => .error (.unauthorized "Access denied. No token provided.")
  | some t =>
    match jwtVerify t now with
    | .error _ => .error (.unauthorized "Token has expired.")
    | .ok decoded =>
      match findById users decoded.sub with
      | none => .error (.unauthorized "The user belonging to this token no longer exists.")
      | some user =>
        if changedPasswordAfter user decoded.iat then
          .error (.unauthorized "User recently changed password. Please log in again.")
        else if !user.isActive then
          .error (.unauthorized "Your account has been deactivated.")
        else
          .ok user

/-- The role-permission table from config/roles.js (allRoles / roleRights):
an immutable map from role name to permission strings; none for a role that
is not a key of the map. -/
def roleRights (role : String) : Option (List String) :=
  if role = "user" then
    some ["getProducts", "manageOwnProfile", "createOrder", "viewOwnOrders"]
  else if role = "admin" then
    some ["getUsers", "manageUsers", "getProducts", "manageProducts",
          "getOrders", "manageOrders", "manageOwnProfile", "createOrder",
          "viewOwnOrders", "viewAnalytics", "manageSettings"]
  else if role = "moderator" then
    some ["getUsers", "getProducts", "manageProducts", "getOrders",
          "manageOwnProfile", "viewOwnOrders"]
  else
    none

/-- authorize from the auth middleware: no user means Unauthorized; an empty
rights list passes; otherwise the rights of the role of the user are looked
up (a role outside the map makes userRights.includes throw a TypeError,
modelled as the internal error) and the request is rejected with Forbidden
exactly when the user lacks some required right and the userId path
parameter differs from the own id of the user. -/
def authorize (requiredRights : List String) (reqUser : Option User)
    (paramsUserId : Option Nat) : Except Err Unit :=
  match reqUser with
  | none => .error (.unauthorized "Please authenticate first.")
  | some user =>
    if requiredRights.isEmpty then .ok ()
    else
      match roleRights user.role with
      | none => .error .internal
      | some userRights =>
        let hasRequiredRights :=
          requiredRights.all (fun right => userRights.contains right)
        if !hasRequiredRights && !(decide (paramsUserId = some user.id)) then
          .error (.forbidden "You do not have permission to perform this action.")
        else
          .ok ()

/-- The JSON reply of a controller: HTTP status plus the fixed success flag
and message of the body. -/
structure HttpResponse where
  status : Nat
  success : Bool
  message : String
deriving DecidableEq, Repr

/-- forgotPassword from auth.controller.js: awaits the service and then
always replies 200 with the fixed message. The reply carries no data that
depends on whether the email was registered. -/
def forgotPasswordController (cfg : Config) (s : AuthState) (email : String)
    (now : Nat) : HttpResponse × AuthState × List (String × Jwt) :=
  let served := forgotPassword cfg s email now
  ({ status := 200, success := true,
     message := "If an account exists with this email, a password reset link has been sent." },
   served.1, served.2)

/-- The destructuring in updateMe (auth.controller.js):
const { password, role, isActive, isEmailVerified, ...updateData } = req.body.
The request body is an object, i.e. a key-value list with no duplicate keys;
updateData keeps every field except the four listed ones and is what gets
forwarded to userService.updateUserById. -/
def updateMeData {α : Type} (body : List (String × α)) : List (String × α) :=
  body.filter (fun kv =>
    decide (kv.1 ≠ "password" ∧ kv.1 ≠ "role" ∧ kv.1 ≠ "isActive" ∧
            kv.1 ≠ "isEmailVerified"))

/-- Whether a rotation attempt returned a fresh token pair. -/
def rotationOk (r : Except Err (TokenPair × AuthState)) : Bool :=
  match r with
  | .ok _ => true
  | .error _ => false

/-- Whether an interleaved rotation attempt returned a fresh token pair. -/
def attemptOk (r : Except Err TokenPair) : Bool :=
  match r with
  | .ok _ => true
  | .error _ => false

/-- Two concurrent refreshAuth calls on the same refresh token, interleaved
so that both read phases (the findOne of verifyToken and the findById) run
against the initial state before either write phase (deleteOne and
generateAuthTokens) runs. The write phases are serialized A then B, as the
store would serialize them per document. Each component reports the outcome
of one attempt. -/
def interleavedDoubleRotation (cfg : Config) (s : AuthState) (tok : Jwt)
    (now : Nat) : Except Err TokenPair × Except Err TokenPair × AuthState :=
  match rotationLookup s tok now, rotationLookup s tok now with
  | .ok (docA, userA), .ok (docB, userB) =>
    let ca := rotationCommit cfg s docA userA now
    let cb := rotationCommit cfg ca.2 docB userB now
    (.ok ca.1, .ok cb.1, cb.2)
  | .ok (docA, userA), .error _ =>
    let ca := rotationCommit cfg s docA userA now
    (.ok ca.1, .error (.unauthorized "Please authenticate"), ca.2)
  | .error _, .ok (docB, userB) =>
    let cb := rotationCommit cfg s docB userB now
    (.error (.unauthorized "Please authenticate"), .ok cb.1, cb.2)
  | .error _, .error _ =>
    (.error (.unauthorized "Please authenticate"),
     .error (.unauthorized "Please authenticate"), s)

/-- Remapping of the expires field of every ledger document, leaving every
other field unchanged; used to state that the validity lookup never reads
expiry. -/
def Ledger.mapExpires (f : Nat → Nat) (l : Ledger) : Ledger :=
  { recs := l.recs.map (fun r => { r with expires := f r.expires }),
    nextId := l.nextId }

/-! Helper lemmas shared by the claim theorems. -/

theorem findById_saveUser {users : List User} {uid : Nat} {u u1 : User}
    (h : findById users uid = some u) (hid : u1.id = u.id) :
    findById (saveUser users u1) uid = some u1 := by
  have huid : u.id = uid := by
    have := List.find?_some h
    simpa using this
  have h1 : u1.id = uid := by rw [hid, huid]
  induction users with
  | nil => exact absurd h (by simp [findById])
  | cons v vs ih =>
    by_cases hv : v.id = uid
    · have hvu : v.id = u1.id := by rw [hv, h1]
      show List.find? _ ((if v.id = u1.id then u1 else v) :: saveUser vs u1)
          = some u1
      rw [if_pos hvu]
      exact List.find?_cons_of_pos _ (by simpa using h1)
    · have htail : findById vs uid = some u := by
        have h2 := h
        rw [findById] at h2
        rw [List.find?_cons_of_neg _ (by simpa using hv)] at h2
        exact h2
      have hvu : ¬(v.id = u1.id) := by rw [h1]; exact hv
      show List.find? _ ((if v.id = u1.id then u1 else v) :: saveUser vs u1)
          = some u1
      rw [if_neg hvu]
      rw [List.find?_cons_of_neg _ (by simpa using hv)]
      exact ih htail

/-! C3: idempotence of saveToken per token string. -/

def c3Tok : Jwt := { sub := 1, iat := 0, exp := 100, type := .refresh }

def c3Once : Ledger :=
  (saveToken { recs := [], nextId := 0 } c3Tok 1 100 .refresh false).2

def c3Twice : Ledger := (saveToken c3Once c3Tok 1 100 .refresh false).2

/-- C3 counterexample: calling saveToken a second time with the very same
token string does not leave the ledger state equal to the state after the
first call - Token.create inserts a second document (the token field is
indexed but not unique). -/
theorem c3_counterexample : c3Twice ≠ c3Once := by decide

/-- C3 (amended): saveToken is not idempotent per token string; every call
appends one fresh document, so two calls with the same token string leave
the ledger equal to the original one extended by two records bearing that
same token string. -/
theorem c3_save_appends_twice (l : Ledger) (tok : Jwt) (uid e : Nat)
    (ty : TokenType) (b : Bool) :
    (saveToken (saveToken l tok uid e ty b).2 tok uid e ty b).2.recs
      = l.recs
        ++ [{ id := l.nextId, token := tok, user := uid, type := ty,
              expires := e, blacklisted := b }]
        ++ [{ id := l.nextId + 1, token := tok, user := uid, type := ty,
              expires := e, blacklisted := b }] := by
  simp [saveToken, Ledger.create]

/-! C4: the ledger validity lookup filters by kind and revocation, never by
expiry. -/

/-- C4: a record returned by the ledger validity lookup inside verifyToken
is a document of the ledger that bears the presented token string, matches
the requested kind, belongs to the subject of the token, and is not
blacklisted; moreover the lookup never reads the expires field: remapping
every expiry in the ledger commutes with the lookup, so expiry is left to
the passive TTL purge. -/
theorem c4_findValid_filters :
    (∀ (l : Ledger) (tok : Jwt) (sub : Nat) (ty : TokenType) (r : TokenRecord),
        findValidLookup l tok sub ty = some r →
          r ∈ l.recs ∧ r.token = tok ∧ r.type = ty ∧ r.user = sub ∧
            r.blacklisted = false)
    ∧ (∀ (l : Ledger) (tok : Jwt) (sub : Nat) (ty : TokenType) (f : Nat → Nat),
        findValidLookup (Ledger.mapExpires f l) tok sub ty
          = (findValidLookup l tok sub ty).map
              (fun r => { r with expires := f r.expires })) := by
  constructor
  · intro l tok sub ty r h
    have hp := List.find?_some h
    have hm := List.mem_of_find?_eq_some h
    simp only [decide_eq_true_eq] at hp
    exact ⟨hm, hp.1, hp.2.1, hp.2.2.1, hp.2.2.2⟩
  · intro l tok sub ty f
    unfold findValidLookup Ledger.findOne Ledger.mapExpires
    rw [List.find?_map]
    rfl

def c4Tok : Jwt := { sub := 7, iat := 1, exp := 5, type := .refresh }

def c4Rec : TokenRecord :=
  { id := 0, token := c4Tok, user := 7, type := .refresh, expires := 5,
    blacklisted := false }

def c4Ledger : Ledger := { recs := [c4Rec], nextId := 1 }

/-- C4 witness: the lookup returns a long-expired record (expires at 5,
while the lookup takes no clock at all) and the returned record satisfies
exactly the kind and revocation filters. -/
theorem c4_witness :
    c4Rec ∈ c4Ledger.recs ∧ c4Rec.token = c4Tok ∧ c4Rec.type = .refresh ∧
      c4Rec.user = 7 ∧ c4Rec.blacklisted = false :=
  c4_findValid_filters.1 c4Ledger c4Tok 7 .refresh c4Rec rfl

/-! C7: login failure does not reveal whether the email is registered. -/

/-- C7: a login attempt with an unregistered email and a login attempt with
a registered email but a mismatching password both fail with the one
Unauthorized error "Incorrect email or password" - the same error class and
the same message. -/
theorem c7_login_uniform_unauthorized :
    ∀ (cmp : String → String → Bool) (s : AuthState)
      (email password : String) (now : Nat),
      (findByEmail s.users email = none →
        login cmp s email password now
          = .error (.unauthorized "Incorrect email or password"))
      ∧ (∀ u, findByEmail s.users email = some u →
          cmp password u.password = false →
          login cmp s email password now
            = .error (.unauthorized "Incorrect email or password")) := by
  intro cmp s email password now
  constructor
  · intro h
    simp [login, h]
  · intro u h hcmp
    simp [login, h, hcmp]

def c7User : User :=
  { id := 1, email := "a@x.com", password := "hashA", role := "user",
    isActive := true, isEmailVerified := true, passwordChangedAt := none,
    lastLogin := none }

def c7State : AuthState := { users := [c7User], ledger := { recs := [], nextId := 0 } }

/-- C7 witness: at a concrete store, the unknown-email failure and the
wrong-password failure are the identical Unauthorized error. -/
theorem c7_witness :
    login (fun a b => a == b) c7State "b@x.com" "pw" 0
        = .error (.unauthorized "Incorrect email or password")
    ∧ login (fun a b => a == b) c7State "a@x.com" "wrong" 0
        = .error (.unauthorized "Incorrect email or password") :=
  ⟨(c7_login_uniform_unauthorized (fun a b => a == b) c7State "b@x.com" "pw" 0).1 rfl,
   (c7_login_uniform_unauthorized (fun a b => a == b) c7State "a@x.com" "wrong" 0).2
     c7User rfl rfl⟩

/-! C8: forgot-password does not leak account existence. -/

/-- C8: when no user bears the email, forgotPassword returns success while
leaving the state untouched and sending no mail; and the controller reply
(status, success flag, message) is one constant, identical across any two
runs whether or not the email is registered. -/
theorem c8_forgot_password_no_leak :
    (∀ (cfg : Config) (s : AuthState) (email : String) (now : Nat),
        findByEmail s.users email = none →
          forgotPassword cfg s email now = (s, []))
    ∧ (∀ (cfg : Config) (s₁ s₂ : AuthState) (e₁ e₂ : String) (n₁ n₂ : Nat),
        (forgotPasswordController cfg s₁ e₁ n₁).1
          = (forgotPasswordController cfg s₂ e₂ n₂).1) := by
  constructor
  · intro cfg s email now h
    simp [forgotPassword, h]
  · intro cfg s₁ s₂ e₁ e₂ n₁ n₂
    rfl

def c8Cfg : Config :=
  { accessExpirationMinutes := 30, refreshExpirationDays := 30,
    resetPasswordExpirationMinutes := 10, verifyEmailExpirationMinutes := 60 }

/-- C8 witness: with a concrete store holding only a@x.com, the absent email
b@x.com produces success with no state change and no mail, and the
controller reply equals the reply of a run on the registered email. -/
theorem c8_witness :
    forgotPassword c8Cfg c7State "b@x.com" 0 = (c7State, [])
    ∧ (forgotPasswordController c8Cfg c7State "b@x.com" 0).1
        = (forgotPasswordController c8Cfg c7State "a@x.com" 0).1 :=
  ⟨c8_forgot_password_no_leak.1 c8Cfg c7State "b@x.com" 0 rfl,
   c8_forgot_password_no_leak.2 c8Cfg c7State c7State "b@x.com" "a@x.com" 0 0⟩

/-! C10: updateMe strips exactly the four sensitive fields. -/

/-- C10: the update payload forwarded by updateMe holds exactly the supplied
fields other than password, role, isActive and isEmailVerified: the four
sensitive keys are stripped, every other key-value pair passes through. -/
theorem c10_updateMe_strips_sensitive :
    ∀ (α : Type) (body : List (String × α)) (kv : String × α),
      kv ∈ updateMeData body ↔
        (kv ∈ body ∧ kv.1 ≠ "password" ∧ kv.1 ≠ "role" ∧
          kv.1 ≠ "isActive" ∧ kv.1 ≠ "isEmailVerified") := by
  intro α body kv
  simp [updateMeData, List.mem_filter, and_assoc]

/-! C6: the authorization gate re-resolves the user on every request. -/

/-- C6: for a signature-verified, unexpired bearer token, the gate succeeds
exactly when the owning user still exists, has not changed the password
after the issued-at claim of the token, and is active - and each of the
three failure modes is an Unauthorized rejection with its message. -/
theorem c6_auth_gate (users : List User) (t : Jwt) (now : Nat)
    (hlive : now < t.exp) :
    (∀ u, authGate users (some t) now = .ok u ↔
        (findById users t.sub = some u ∧ changedPasswordAfter u t.iat = false ∧
          u.isActive = true))
    ∧ (findById users t.sub = none →
        authGate users (some t) now
          = .error (.unauthorized "The user belonging to this token no longer exists."))
    ∧ (∀ u, findById users t.sub = some u →
        changedPasswordAfter u t.iat = true →
        authGate users (some t) now
          = .error (.unauthorized "User recently changed password. Please log in again."))
    ∧ (∀ u, findById users t.sub = some u →
        changedPasswordAfter u t.iat = false → u.isActive = false →
        authGate users (some t) now
          = .error (.unauthorized "Your account has been deactivated.")) := by
  have hjwt : jwtVerify t now = .ok t := by simp [jwtVerify, hlive]
  refine ⟨?_, ?_, ?_, ?_⟩
  · intro u
    constructor
    · intro h
      simp only [authGate, hjwt] at h
      cases hf : findById users t.sub with
      | none => simp [hf] at h
      | some v =>
        simp only [hf] at h
        cases hc : changedPasswordAfter v t.iat with
        | true => simp [hc] at h
        | false =>
          simp only [hc] at h
          cases ha : v.isActive with
          | false => simp [ha] at h
          | true =>
            simp only [ha] at h
            simp only [Bool.not_true, if_false, if_true] at h
            have hvu : v = u := by
              simpa using h
            subst hvu
            exact ⟨rfl, hc, ha⟩
    · rintro ⟨hf, hc, ha⟩
      simp [authGate, hjwt, hf, hc, ha]
  · intro hf
    simp [authGate, hjwt, hf]
  · intro u hf hc
    simp [authGate, hjwt, hf, hc]
  · intro u hf hc ha
    simp [authGate, hjwt, hf, hc, ha]

def c6User : User :=
  { id := 3, email := "c@x.com", password := "h", role := "user",
    isActive := true, isEmailVerified := false, passwordChangedAt := some 40,
    lastLogin := none }

def c6Tok : Jwt := { sub := 3, iat := 50, exp := 100, type := .access }

/-- C6 witness: with a concrete store, an unexpired token whose issued-at
postdates the password change resolves and attaches the user. -/
theorem c6_witness : authGate [c6User] (some c6Tok) 60 = .ok c6User :=
  ((c6_auth_gate [c6User] c6Tok 60 (by decide)).1 c6User).mpr
    ⟨rfl, rfl, rfl⟩

/-! C9: role rights or ownership of the targeted userId. -/

/-- C9: with a non-empty rights list and a user whose role is a key of the
role-permission map, authorize passes exactly when the role carries every
required right or the userId path parameter equals the own id of the user;
in particular a user lacking the rights passes on their own userId. -/
theorem c9_authorize_rights_or_self
    (requiredRights : List String) (user : User) (paramsUserId : Option Nat)
    (userRights : List String)
    (hne : requiredRights ≠ [])
    (hrole : roleRights user.role = some userRights) :
    authorize requiredRights (some user) paramsUserId = .ok () ↔
      ((∀ right ∈ requiredRights, right ∈ userRights) ∨
        paramsUserId = some user.id) := by
  have hemp : requiredRights.isEmpty = false := by
    cases requiredRights with
    | nil => exact absurd rfl hne
    | cons a l => rfl
  simp only [authorize, hrole, hemp, Bool.false_eq_true, if_false]
  by_cases hall : ∀ right ∈ requiredRights, right ∈ userRights
  · have hTrue : (requiredRights.all fun right => userRights.contains right) = true := by
      simp only [List.all_eq_true]
      intro x hx
      simp only [List.contains, List.elem_eq_mem, decide_eq_true_eq]
      exact hall x hx
    rw [hTrue]
    simp only [Bool.not_true, Bool.false_and, Bool.false_eq_true, if_false]
    exact iff_of_true trivial (Or.inl hall)
  · have hFalse : (requiredRights.all fun right => userRights.contains right) = false := by
      rw [Bool.eq_false_iff]
      intro hco
      rw [List.all_eq_true] at hco
      refine hall (fun x hx => ?_)
      have hx2 := hco x hx
      simpa using hx2
    rw [hFalse]
    by_cases hpid : paramsUserId = some user.id
    · rw [decide_eq_true hpid]
      simp only [Bool.not_false, Bool.not_true, Bool.true_and, Bool.and_false,
        Bool.false_eq_true, if_false]
      exact iff_of_true trivial (Or.inr hpid)
    · rw [decide_eq_false hpid]
      simp only [Bool.not_false, Bool.true_and, if_true]
      exact iff_of_false (by simp) (fun hor => hor.elim hall hpid)

def c9User : User :=
  { id := 5, email := "d@x.com", password := "h", role := "user",
    isActive := true, isEmailVerified := true, passwordChangedAt := none,
    lastLogin := none }

/-- C9 witness: a user whose role lacks the manageUsers right still passes
authorize when the targeted userId is their own id. -/
theorem c9_witness :
    authorize ["manageUsers"] (some c9User) (some 5) = .ok () :=
  (c9_authorize_rights_or_self ["manageUsers"] c9User (some 5)
      ["getProducts", "manageOwnProfile", "createOrder", "viewOwnOrders"]
      (by simp) rfl).mpr (Or.inr rfl)

/-! C2: the consumed refresh record is deleted by a separate read then
write, not by an atomic find-and-delete. -/

def c2Cfg : Config :=
  { accessExpirationMinutes := 30, refreshExpirationDays := 30,
    resetPasswordExpirationMinutes := 10, verifyEmailExpirationMinutes := 60 }

def c2User : User :=
  { id := 1, email := "u@x.com", password := "h", role := "user",
    isActive := true, isEmailVerified := true, passwordChangedAt := none,
    lastLogin := none }

def c2Tok : Jwt := { sub := 1, iat := 100, exp := 100 + 30 * 86400, type := .refresh }

def c2State : AuthState :=
  { users := [c2User],
    ledger :=
      { recs := [{ id := 0, token := c2Tok, user := 1, type := .refresh,
                   expires := 100 + 30 * 86400, blacklisted := false }],
        nextId := 1 } }

/-- C2 refutation witness: rotation is Token.findOne (inside
tokenService.verifyToken) followed by the separate statement
refreshTokenDoc.deleteOne(), so when two rotation attempts on the same
stolen refresh token each run their read phase before either runs its write
phase, the second deleteOne is a silent no-op and BOTH attempts return a
fresh token pair - not at most one. -/
theorem c2_interleaved_rotations_both_succeed :
    attemptOk (interleavedDoubleRotation c2Cfg c2State c2Tok 200).1 = true ∧
    attemptOk (interleavedDoubleRotation c2Cfg c2State c2Tok 200).2.1 = true := by
  constructor <;> rfl

/-! C1: replay of a rotated refresh token. -/

theorem refreshAuth_error_of_no_match (cfg : Config) (s : AuthState)
    (tok : Jwt) (now : Nat)
    (hno : findValidLookup s.ledger tok tok.sub .refresh = none) :
    refreshAuth cfg s tok now = .error (.unauthorized "Please authenticate") := by
  by_cases h2 : now < tok.exp
  · simp [refreshAuth, rotationLookup, verifyToken, jwtVerify, h2, hno]
  · simp [refreshAuth, rotationLookup, verifyToken, jwtVerify, h2]

/-- C1 (amended): a refresh token consumed by a successful rotation fails
every later rotation attempt with Unauthorized, provided the rotation ran at
a time other than the issued-at second of the token (otherwise the
deterministic signer re-mints the identical token string for the fresh
record) and the ledger held at most one record bearing that token string
(saveToken does not deduplicate; see C3). -/
theorem c1_rotation_replay_rejected (cfg : Config) (s : AuthState) (tok : Jwt)
    (now₁ now₂ : Nat) (pair : TokenPair) (s₁ : AuthState)
    (hrot : refreshAuth cfg s tok now₁ = .ok (pair, s₁))
    (hiat : tok.iat ≠ now₁)
    (huniq : ∀ r₁ ∈ s.ledger.recs, ∀ r₂ ∈ s.ledger.recs,
        r₁.token = tok → r₂.token = tok → r₁ = r₂) :
    refreshAuth cfg s₁ tok now₂ = .error (.unauthorized "Please authenticate") := by
  cases hlk : rotationLookup s tok now₁ with
  | error err =>
    unfold refreshAuth at hrot
    rw [hlk] at hrot
    simp at hrot
  | ok du =>
    obtain ⟨doc, user⟩ := du
    have hs₁ : s₁ = (rotationCommit cfg s doc user now₁).2 := by
      unfold refreshAuth at hrot
      rw [hlk] at hrot
      have hrot2 : Except.ok (ε := Err) (rotationCommit cfg s doc user now₁)
          = Except.ok (pair, s₁) := hrot
      injection hrot2 with h3
      exact (congrArg Prod.snd h3).symm
    unfold rotationLookup at hlk
    cases hvt : verifyToken s.ledger tok .refresh now₁ with
    | error err => rw [hvt] at hlk; exact absurd hlk (by simp)
    | ok doc0 =>
      rw [hvt] at hlk
      have hlk2 : (match findById s.users doc0.user with
          | none => (Except.error Err.internal : Except Err (TokenRecord × User))
          | some u => Except.ok (doc0, u)) = Except.ok (doc, user) := hlk
      cases hfu : findById s.users doc0.user with
      | none => rw [hfu] at hlk2; simp at hlk2
      | some user0 =>
        rw [hfu] at hlk2
        simp only [Except.ok.injEq, Prod.mk.injEq] at hlk2
        obtain ⟨hdoc0, huser0⟩ := hlk2
        unfold verifyToken at hvt
        cases hjw : jwtVerify tok now₁ with
        | error err => rw [hjw] at hvt; simp at hvt
        | ok payload =>
          have hpayload : payload = tok := by
            unfold jwtVerify at hjw
            by_cases h1 : now₁ < tok.exp
            · rw [if_pos h1] at hjw
              simpa using hjw.symm
            · rw [if_neg h1] at hjw
              simp at hjw
          rw [hjw] at hvt
          rw [hpayload] at hvt
          have hvt2 : (match findValidLookup s.ledger tok tok.sub .refresh with
              | none => (Except.error (Err.unauthorized "Token not found") :
                  Except Err TokenRecord)
              | some d => Except.ok d) = Except.ok doc0 := hvt
          cases hfind : findValidLookup s.ledger tok tok.sub .refresh with
          | none => rw [hfind] at hvt2; simp at hvt2
          | some doc1 =>
            rw [hfind] at hvt2
            have hd : doc1 = doc0 := by simpa using hvt2
            have hfind2 :
                List.find? (fun r => decide (r.token = tok ∧
                    r.type = TokenType.refresh ∧ r.user = tok.sub ∧
                    r.blacklisted = false)) s.ledger.recs = some doc1 := hfind
            have hpdoc := List.find?_some hfind2
            rw [decide_eq_true_eq] at hpdoc
            obtain ⟨hdt, hdty, hdu, hdb⟩ := hpdoc
            have hdmem : doc1 ∈ s.ledger.recs := List.mem_of_find?_eq_some hfind2
            rw [hs₁]
            have hddd : doc = doc1 := by rw [← hdoc0, ← hd]
            rw [hddd]
            apply refreshAuth_error_of_no_match
            simp only [rotationCommit, generateAuthTokens, saveToken,
              Ledger.create, Ledger.deleteDoc, generateToken, findValidLookup,
              Ledger.findOne]
            rw [List.find?_eq_none]
            intro r hr
            rcases List.mem_append.mp hr with hold | hnew
            · obtain ⟨hrmem, hrid⟩ := List.mem_filter.mp hold
              rw [decide_eq_true_eq] at hrid
              intro hp
              rw [decide_eq_true_eq] at hp
              exact hrid (congrArg TokenRecord.id
                (huniq r hrmem doc1 hdmem hp.1 hdt))
            · have hrnew := List.mem_singleton.mp hnew
              subst hrnew
              intro hp
              rw [decide_eq_true_eq] at hp
              exact hiat (by rw [← hp.1])

def c1Cfg : Config :=
  { accessExpirationMinutes := 30, refreshExpirationDays := 1,
    resetPasswordExpirationMinutes := 10, verifyEmailExpirationMinutes := 60 }

def c1User : User :=
  { id := 1, email := "a@x.com", password := "h", role := "user",
    isActive := true, isEmailVerified := true, passwordChangedAt := none,
    lastLogin := none }

def c1Tok : Jwt := { sub := 1, iat := 10, exp := 10 + 86400, type := .refresh }

def c1State0 : AuthState :=
  { users := [c1User],
    ledger :=
      { recs := [{ id := 0, token := c1Tok, user := 1, type := .refresh,
                   expires := 10 + 86400, blacklisted := false }],
        nextId := 1 } }

def c1SameSecond : AuthState :=
  match refreshAuth c1Cfg c1State0 c1Tok 10 with
  | .ok pr => pr.2
  | .error _ => c1State0

/-- C1 counterexample: when the rotation runs in the very unix second the
token was issued (now = iat = 10), generateAuthTokens re-mints the identical
refresh token string and persists a fresh record for it, so presenting the
same token string a second time rotates successfully instead of failing
with Unauthorized. -/
theorem c1_counterexample :
    rotationOk (refreshAuth c1Cfg c1State0 c1Tok 10) = true ∧
    rotationOk (refreshAuth c1Cfg c1SameSecond c1Tok 10) = true := by
  constructor <;> rfl

def c1Rotated : AuthState :=
  match refreshAuth c1Cfg c1State0 c1Tok 20 with
  | .ok pr => pr.2
  | .error _ => c1State0

def c1RotatedPair : TokenPair :=
  match refreshAuth c1Cfg c1State0 c1Tok 20 with
  | .ok pr => pr.1
  | .error _ =>
    { accessToken := c1Tok, accessExpires := 0, refreshToken := c1Tok,
      refreshExpires := 0 }

/-- C1 witness: a concrete rotation at a later second than issuance (20 vs
iat 10) consumes the only ledger record of the token; the replay at time 30
is rejected with Unauthorized. -/
theorem c1_witness :
    refreshAuth c1Cfg c1Rotated c1Tok 30
      = .error (.unauthorized "Please authenticate") :=
  c1_rotation_replay_rejected c1Cfg c1State0 c1Tok 20 30 c1RotatedPair
    c1Rotated rfl (by decide) (by decide)

/-! C5: cascading revocation on password change / reset. -/

theorem verifyToken_ok_props {l : Ledger} {tok : Jwt} {ty : TokenType}
    {now : Nat} {doc : TokenRecord}
    (h : verifyToken l tok ty now = .ok doc) :
    doc ∈ l.recs ∧ doc.token = tok ∧ doc.type = ty ∧ doc.user = tok.sub ∧
      doc.blacklisted = false := by
  unfold verifyToken at h
  cases hjw : jwtVerify tok now with
  | error e2 => rw [hjw] at h; simp at h
  | ok payload =>
    have hpayload : payload = tok := by
      unfold jwtVerify at hjw
      by_cases h1 : now < tok.exp
      · rw [if_pos h1] at hjw
        simpa using hjw.symm
      · rw [if_neg h1] at hjw
        simp at hjw
    rw [hjw, hpayload] at h
    have h2 : (match findValidLookup l tok tok.sub ty with
        | none => (Except.error (Err.unauthorized "Token not found") :
            Except Err TokenRecord)
        | some d => Except.ok d) = Except.ok doc := h
    cases hfind : findValidLookup l tok tok.sub ty with
    | none => rw [hfind] at h2; simp at h2
    | some d1 =>
      rw [hfind] at h2
      have hd : d1 = doc := by simpa using h2
      have hfind2 : List.find? (fun r => decide (r.token = tok ∧ r.type = ty ∧
          r.user = tok.sub ∧ r.blacklisted = false)) l.recs = some d1 := hfind
      have hp := List.find?_some hfind2
      rw [decide_eq_true_eq] at hp
      have hm := List.mem_of_find?_eq_some hfind2
      rw [hd] at hp hm
      exact ⟨hm, hp.1, hp.2.1, hp.2.2.1, hp.2.2.2⟩

theorem noRefresh_rotation_fails (cfg : Config) (s : AuthState) (j : Jwt)
    (now uid : Nat) (hsub : j.sub = uid)
    (hno : ∀ r ∈ s.ledger.recs, ¬(r.user = uid ∧ r.type = TokenType.refresh)) :
    refreshAuth cfg s j now = .error (.unauthorized "Please authenticate") := by
  apply refreshAuth_error_of_no_match
  have hnone : List.find? (fun r => decide (r.token = j ∧
      r.type = TokenType.refresh ∧ r.user = j.sub ∧ r.blacklisted = false))
      s.ledger.recs = none := by
    rw [List.find?_eq_none]
    intro r hr hp
    rw [decide_eq_true_eq] at hp
    exact hno r hr ⟨hp.2.2.1.trans hsub, hp.2.1⟩
  exact hnone

theorem rotation_ok_of_found (cfg : Config) (s : AuthState) (j : Jwt)
    (now : Nat) (doc : TokenRecord) (u : User)
    (hjw : now < j.exp)
    (hfind : findValidLookup s.ledger j j.sub .refresh = some doc)
    (hu : findById s.users doc.user = some u) :
    rotationOk (refreshAuth cfg s j now) = true := by
  have hvt : verifyToken s.ledger j .refresh now = .ok doc := by
    unfold verifyToken
    have h1 : jwtVerify j now = .ok j := by
      unfold jwtVerify
      rw [if_pos hjw]
    rw [h1]
    show (match findValidLookup s.ledger j j.sub .refresh with
        | none => (Except.error (Err.unauthorized "Token not found") :
            Except Err TokenRecord)
        | some d => Except.ok d) = .ok doc
    rw [hfind]
  have hlkup : rotationLookup s j now = .ok (doc, u) := by
    unfold rotationLookup
    rw [hvt]
    show (match findById s.users doc.user with
        | none => (Except.error Err.internal : Except Err (TokenRecord × User))
        | some u2 => Except.ok (doc, u2)) = .ok (doc, u)
    rw [hu]
  unfold refreshAuth
  rw [hlkup]
  rfl

theorem not_of_decide_not (P : Prop) [Decidable P]
    (h : (!(decide P)) = true) : ¬P := by
  cases hq : decide P with
  | false => exact of_decide_eq_false hq
  | true => rw [hq] at h; simp at h

theorem findValid_append_fresh (l : List TokenRecord) (nid : Nat) (tok : Jwt)
    (uid e : Nat) (hsub : tok.sub = uid)
    (hno : ∀ r ∈ l, ¬(r.user = uid ∧ r.type = TokenType.refresh)) :
    List.find? (fun r => decide (r.token = tok ∧ r.type = TokenType.refresh ∧
        r.user = tok.sub ∧ r.blacklisted = false))
      (l ++ [{ id := nid, token := tok, user := uid, type := .refresh,
               expires := e, blacklisted := false }])
      = some { id := nid, token := tok, user := uid, type := .refresh,
               expires := e, blacklisted := false } := by
  rw [List.find?_append]
  have h1 : List.find? (fun r => decide (r.token = tok ∧
      r.type = TokenType.refresh ∧ r.user = tok.sub ∧ r.blacklisted = false))
      l = none := by
    rw [List.find?_eq_none]
    intro r hr hp
    rw [decide_eq_true_eq] at hp
    exact hno r hr ⟨hp.2.2.1.trans hsub, hp.2.1⟩
  rw [h1, List.find?_cons_of_pos _ (by
    rw [decide_eq_true_eq]
    exact ⟨rfl, rfl, hsub.symm, rfl⟩)]
  rfl

theorem changePassword_post (cmp : String → String → Bool)
    (hash : String → String) (s : AuthState) (uid : Nat) (cur new : String)
    (now : Nat) (s₁ : AuthState)
    (h : changePassword cmp hash s uid cur new now = .ok s₁) :
    (∀ r ∈ s₁.ledger.recs, ¬(r.user = uid ∧ r.type = TokenType.refresh)) ∧
    (∃ u1, findById s₁.users uid = some u1) := by
  unfold changePassword at h
  cases hfu : findById s.users uid with
  | none => rw [hfu] at h; simp at h
  | some user =>
    rw [hfu] at h
    have huid : user.id = uid := by simpa using List.find?_some hfu
    have hA : (if (!cmp cur user.password) = true then
        (Except.error (Err.badRequest "Current password is incorrect") :
          Except Err AuthState)
      else Except.ok
        (⟨saveUser s.users (applyPasswordChange hash user new now),
          s.ledger.deleteMany (fun r => decide (r.user = user.id ∧
            r.type = TokenType.refresh))⟩ : AuthState)) = Except.ok s₁ := h
    cases hcm : cmp cur user.password with
    | false => rw [hcm] at hA; simp at hA
    | true =>
      rw [hcm] at hA
      have h2 : Except.ok (ε := Err)
          (⟨saveUser s.users (applyPasswordChange hash user new now),
            s.ledger.deleteMany (fun r => decide (r.user = user.id ∧
              r.type = TokenType.refresh))⟩ : AuthState) = .ok s₁ := hA
      injection h2 with h3
      constructor
      · intro r hr
        rw [← h3] at hr
        obtain ⟨hrm, hrp⟩ := List.mem_filter.mp hr
        have hnp : ¬(r.user = user.id ∧ r.type = TokenType.refresh) :=
          not_of_decide_not _ hrp
        intro hc
        exact hnp ⟨hc.1.trans huid.symm, hc.2⟩
      · refine ⟨applyPasswordChange hash user new now, ?_⟩
        rw [← h3]
        exact findById_saveUser hfu rfl

theorem resetPassword_post (hash : String → String) (s : AuthState)
    (rtok : Jwt) (new : String) (now : Nat) (s₁ : AuthState)
    (h : resetPassword hash s rtok new now = .ok s₁) :
    (∀ r ∈ s₁.ledger.recs, ¬(r.user = rtok.sub ∧ r.type = TokenType.refresh)) ∧
    (∃ u1, findById s₁.users rtok.sub = some u1) := by
  unfold resetPassword at h
  cases hin : resetPasswordInner hash s rtok new now with
  | error e2 => rw [hin] at h; simp at h
  | ok s2 =>
    rw [hin] at h
    have hs2 : s2 = s₁ := by simpa using h
    rw [hs2] at hin
    unfold resetPasswordInner at hin
    cases hvt : verifyToken s.ledger rtok .resetPassword now with
    | error e2 => rw [hvt] at hin; simp at hin
    | ok doc =>
      rw [hvt] at hin
      have hdu : doc.user = rtok.sub := (verifyToken_ok_props hvt).2.2.2.1
      have hin2 : (match findById s.users doc.user with
          | none => (Except.error Err.internal : Except Err AuthState)
          | some user => Except.ok
              (⟨saveUser s.users (applyPasswordChange hash user new now),
                (s.ledger.deleteMany (fun r => decide (r.user = user.id ∧
                  r.type = TokenType.resetPassword))).deleteMany
                  (fun r => decide (r.user = user.id ∧
                    r.type = TokenType.refresh))⟩ : AuthState))
          = Except.ok s₁ := hin
      cases hfu : findById s.users doc.user with
      | none => rw [hfu] at hin2; simp at hin2
      | some user =>
        rw [hfu] at hin2
        have huid : user.id = doc.user := by simpa using List.find?_some hfu
        have husr : user.id = rtok.sub := huid.trans hdu
        injection hin2 with h3
        constructor
        · intro r hr
          rw [← h3] at hr
          obtain ⟨hrm, hrp⟩ := List.mem_filter.mp hr
          have hnp : ¬(r.user = user.id ∧ r.type = TokenType.refresh) :=
            not_of_decide_not _ hrp
          intro hc
          exact hnp ⟨hc.1.trans husr.symm, hc.2⟩
        · refine ⟨applyPasswordChange hash user new now, ?_⟩
          rw [← h3]
          rw [hdu] at hfu
          exact findById_saveUser hfu rfl

/-- C5: after a successful changePassword (respectively resetPassword) for a
user, every refresh token bearing that user as its subject fails a rotation
attempt with Unauthorized (the cascading Token.deleteMany removed every
refresh record of the user), while a refresh token freshly issued by
generateAuthTokens after the change rotates successfully (within its
lifetime). -/
theorem c5_password_change_revokes_rotation
    (cmp : String → String → Bool) (hash : String → String) (cfg : Config) :
    (∀ (s : AuthState) (uid : Nat) (cur new : String) (now : Nat)
        (s₁ : AuthState),
        changePassword cmp hash s uid cur new now = .ok s₁ →
          (∀ (j : Jwt) (t : Nat), j.sub = uid →
              refreshAuth cfg s₁ j t
                = .error (.unauthorized "Please authenticate"))
          ∧ (∀ t₁ t₂ : Nat, t₂ < t₁ + cfg.refreshExpirationDays * 86400 →
              rotationOk (refreshAuth cfg
                { users := s₁.users,
                  ledger := (generateAuthTokens cfg s₁.ledger uid t₁).2 }
                (generateAuthTokens cfg s₁.ledger uid t₁).1.refreshToken t₂)
                = true))
    ∧ (∀ (s : AuthState) (rtok : Jwt) (new : String) (now : Nat)
        (s₁ : AuthState),
        resetPassword hash s rtok new now = .ok s₁ →
          (∀ (j : Jwt) (t : Nat), j.sub = rtok.sub →
              refreshAuth cfg s₁ j t
                = .error (.unauthorized "Please authenticate"))
          ∧ (∀ t₁ t₂ : Nat, t₂ < t₁ + cfg.refreshExpirationDays * 86400 →
              rotationOk (refreshAuth cfg
                { users := s₁.users,
                  ledger := (generateAuthTokens cfg s₁.ledger rtok.sub t₁).2 }
                (generateAuthTokens cfg s₁.ledger rtok.sub t₁).1.refreshToken
                t₂) = true)) := by
  constructor
  · intro s uid cur new now s₁ h
    obtain ⟨hno1, u1, hu1⟩ := changePassword_post cmp hash s uid cur new now s₁ h
    constructor
    · intro j t hsub
      exact noRefresh_rotation_fails cfg s₁ j t uid hsub hno1
    · intro t₁ t₂ ht
      have hfind := findValid_append_fresh s₁.ledger.recs s₁.ledger.nextId
        ((generateAuthTokens cfg s₁.ledger uid t₁).1.refreshToken) uid
        (t₁ + cfg.refreshExpirationDays * 86400) rfl hno1
      exact rotation_ok_of_found cfg
        { users := s₁.users, ledger := (generateAuthTokens cfg s₁.ledger uid t₁).2 }
        ((generateAuthTokens cfg s₁.ledger uid t₁).1.refreshToken) t₂
        { id := s₁.ledger.nextId,
          token := (generateAuthTokens cfg s₁.ledger uid t₁).1.refreshToken,
          user := uid, type := .refresh,
          expires := t₁ + cfg.refreshExpirationDays * 86400,
          blacklisted := false }
        u1 ht hfind hu1
  · intro s rtok new now s₁ h
    obtain ⟨hno1, u1, hu1⟩ := resetPassword_post hash s rtok new now s₁ h
    constructor
    · intro j t hsub
      exact noRefresh_rotation_fails cfg s₁ j t rtok.sub hsub hno1
    · intro t₁ t₂ ht
      have hfind := findValid_append_fresh s₁.ledger.recs s₁.ledger.nextId
        ((generateAuthTokens cfg s₁.ledger rtok.sub t₁).1.refreshToken) rtok.sub
        (t₁ + cfg.refreshExpirationDays * 86400) rfl hno1
      exact rotation_ok_of_found cfg
        { users := s₁.users,
          ledger := (generateAuthTokens cfg s₁.ledger rtok.sub t₁).2 }
        ((generateAuthTokens cfg s₁.ledger rtok.sub t₁).1.refreshToken) t₂
        { id := s₁.ledger.nextId,
          token := (generateAuthTokens cfg s₁.ledger rtok.sub t₁).1.refreshToken,
          user := rtok.sub, type := .refresh,
          expires := t₁ + cfg.refreshExpirationDays * 86400,
          blacklisted := false }
        u1 ht hfind hu1

def c5Cfg : Config :=
  { accessExpirationMinutes := 30, refreshExpirationDays := 30,
    resetPasswordExpirationMinutes := 10, verifyEmailExpirationMinutes := 60 }

def c5Cmp : String → String → Bool := fun a b => a == b

def c5Hash : String → String := fun p => p ++ "!"

def c5User : User :=
  { id := 1, email := "e@x.com", password := "pw0", role := "user",
    isActive := true, isEmailVerified := true, passwordChangedAt := none,
    lastLogin := none }

def c5OldTok : Jwt := { sub := 1, iat := 10, exp := 90000, type := .refresh }

def c5State0 : AuthState :=
  { users := [c5User],
    ledger :=
      { recs := [{ id := 0, token := c5OldTok, user := 1, type := .refresh,
                   expires := 90000, blacklisted := false }],
        nextId := 1 } }

def c5AfterChange : AuthState :=
  match changePassword c5Cmp c5Hash c5State0 1 "pw0" "pw1" 100 with
  | .ok s2 => s2
  | .error _ => c5State0

def c5ResetTok : Jwt := { sub := 1, iat := 10, exp := 90000, type := .resetPassword }

def c5RState0 : AuthState :=
  { users := [c5User],
    ledger :=
      { recs := [{ id := 0, token := c5ResetTok, user := 1,
                   type := .resetPassword, expires := 90000,
                   blacklisted := false },
                 { id := 1, token := c5OldTok, user := 1, type := .refresh,
                   expires := 90000, blacklisted := false }],
        nextId := 2 } }

def c5AfterReset : AuthState :=
  match resetPassword c5Hash c5RState0 c5ResetTok "pw2" 100 with
  | .ok s2 => s2
  | .error _ => c5RState0

/-- C5 witness: concrete change-password and reset-password runs, after
which the pre-existing refresh token fails rotation with Unauthorized while
a freshly issued one rotates successfully. -/
theorem c5_witness :
    refreshAuth c5Cfg c5AfterChange c5OldTok 150
        = .error (.unauthorized "Please authenticate")
    ∧ rotationOk (refreshAuth c5Cfg
        { users := c5AfterChange.users,
          ledger := (generateAuthTokens c5Cfg c5AfterChange.ledger 1 200).2 }
        (generateAuthTokens c5Cfg c5AfterChange.ledger 1 200).1.refreshToken
        300) = true
    ∧ refreshAuth c5Cfg c5AfterReset c5OldTok 150
        = .error (.unauthorized "Please authenticate")
    ∧ rotationOk (refreshAuth c5Cfg
        { users := c5AfterReset.users,
          ledger := (generateAuthTokens c5Cfg c5AfterReset.ledger 1 200).2 }
        (generateAuthTokens c5Cfg c5AfterReset.ledger 1 200).1.refreshToken
        300) = true :=
  ⟨((c5_password_change_revokes_rotation c5Cmp c5Hash c5Cfg).1 c5State0 1
      "pw0" "pw1" 100 c5AfterChange rfl).1 c5OldTok 150 rfl,
   ((c5_password_change_revokes_rotation c5Cmp c5Hash c5Cfg).1 c5State0 1
      "pw0" "pw1" 100 c5AfterChange rfl).2 200 300 (by decide),
   ((c5_password_change_revokes_rotation c5Cmp c5Hash c5Cfg).2 c5RState0
      c5ResetTok "pw2" 100 c5AfterReset rfl).1 c5OldTok 150 rfl,
   ((c5_password_change_revokes_rotation c5Cmp c5Hash c5Cfg).2 c5RState0
      c5ResetTok "pw2" 100 c5AfterReset rfl).2 200 300 (by decide)⟩

end ECommerceAuth
